import Mathlib

/-!
Shallow embedding of `aws_lambda_apigateway` (core module
`aws_lambda_apigateway/core/api_gateway.py` and
`aws_lambda_apigateway/core/profile_manager.py`).

The external collaborators (the Lambda function registry and the
API Gateway control plane) are modelled as an environment record that
holds the response each control-plane operation would return during one
run.  Every operation of the repository is translated into a pure
function from that environment (plus the Python arguments) to the pair
of (the list of control-plane calls issued, in order) and (the Python
result: a normal return or a raised exception).
-/

/-- A `botocore.exceptions.ClientError`: carries the service error code
(`e.response['Error']['Code']`) and a message. -/
structure ClientErr where
  code : String
  msg : String
deriving DecidableEq, Repr

/-- A Python exception escaping one of the repository's functions:
either a re-raised `ClientError`, a locally raised `ValueError`, or an
unguarded `IndexError` from list indexing. -/
inductive PyError where
  | clientError (e : ClientErr)
  | valueError (msg : String)
  | indexError
deriving DecidableEq, Repr

/-- One resource node of an API Gateway REST API, as returned by
`get_resources` (`resource['id']`, `resource['path']`). -/
structure Resource where
  id : String
  path : String
deriving DecidableEq, Repr

/-- The `'Configuration'` part of a `lambda.get_function` response. -/
structure FnConfiguration where
  functionArn : String
deriving DecidableEq, Repr

/-- A successful `lambda.get_function` response
(`response['Configuration']['FunctionArn']`). -/
structure FnGetResponse where
  configuration : FnConfiguration
deriving DecidableEq, Repr

/-- A raw `test_invoke_method` response (status, status code, body),
passed through unmodified by `test_invoke_api`. -/
structure TestInvokeResponse where
  status : String
  statusCode : Nat
  body : String
deriving DecidableEq, Repr

/-- One call issued to an external control plane (API Gateway or the
Lambda registry), with the arguments the source passes. -/
inductive Call where
  | getFunction (functionName : String)
  | createRestApi (name description endpointType : String)
  | getResources (restApiId : String)
  | createResource (restApiId parentId pathPart : String)
  | putMethod (restApiId resourceId httpMethod authorizationType : String)
  | putIntegration (restApiId resourceId httpMethod integrationType integrationHttpMethod uri : String)
  | putMethodResponse (restApiId resourceId httpMethod statusCode : String)
  | putIntegrationResponse (restApiId resourceId httpMethod statusCode : String)
  | addPermission (functionName statementId action principal sourceArn : String)
  | createDeployment (restApiId stageName : String)
  | deleteRestApi (restApiId : String)
  | testInvokeMethod (restApiId resourceId httpMethod body : String)
deriving DecidableEq, Repr

/-- `true` for calls addressed to the API Gateway control plane (the
`apigateway` client); `false` for calls to the Lambda registry. -/
def Call.isGatewayCall : Call → Bool
  | .getFunction _ => false
  | .addPermission _ _ _ _ _ => false
  | _ => true

/-- `true` exactly for the invoke-permission grant call. -/
def Call.isPermCall : Call → Bool
  | .addPermission _ _ _ _ _ => true
  | _ => false

/-- `true` exactly for the dry-run test invocation call. -/
def Call.isTestInvokeCall : Call → Bool
  | .testInvokeMethod _ _ _ _ => true
  | _ => false

/-- `true` for a call that would undo a previously created resource
(the only deletion operation in the source is `delete_rest_api`). -/
def Call.isUndoCall : Call → Bool
  | .deleteRestApi _ => true
  | _ => false

/-- The step of the spec's ordered `create` procedure a call belongs to
(steps 1-9; the two fixed-200 response attachments are both step 7).
Calls that `create_api` never issues get numbers above 9. -/
def Call.step : Call → Nat
  | .getFunction _ => 1
  | .createRestApi _ _ _ => 2
  | .getResources _ => 3
  | .createResource _ _ _ => 4
  | .putMethod _ _ _ _ => 5
  | .putIntegration _ _ _ _ _ _ => 6
  | .putMethodResponse _ _ _ _ => 7
  | .putIntegrationResponse _ _ _ _ => 7
  | .addPermission _ _ _ _ _ => 8
  | .createDeployment _ _ => 9
  | .deleteRestApi _ => 10
  | .testInvokeMethod _ _ _ _ => 11

/-- What a `boto3.Session(...)` construction binds: either the ambient
default credential chain (profile argument omitted or `None`) with an
optional region, or a named profile with an optional region. -/
inductive SessionSpec where
  | ambient (region : Option String)
  | namedProfile (profile : String) (region : Option String)
deriving DecidableEq, Repr

/-- `boto3.Session(profile_name=p, region_name=r)`: passing
`profile_name=None` is the same as omitting it (ambient chain). -/
def boto3Session (profile_name region_name : Option String) : SessionSpec :=
  match profile_name with
  | none => .ambient region_name
  | some p => .namedProfile p region_name

/-- Python truthiness of an optional string (`None` and `''` are falsy). -/
def strTruthy : Option String → Bool
  | none => false
  | some s => !(s = "")

/-- `ProfileManager.get_session` from
`aws_lambda_apigateway/core/profile_manager.py`: `'latest'` and falsy
profiles use the default session, a truthy profile name is passed to
`boto3.Session`. -/
def get_session (profile_name region_name : Option String) : SessionSpec :=
  if profile_name = some "latest" then
    boto3Session none region_name
  else if strTruthy profile_name then
    boto3Session profile_name region_name
  else
    boto3Session none region_name

/-- `APIGatewayLambdaIntegration._create_session` from
`aws_lambda_apigateway/core/api_gateway.py`: `'latest'` omits the
profile argument, everything else is passed through to `boto3.Session`. -/
def create_session (profile_name region_name : Option String) : SessionSpec :=
  if profile_name = some "latest" then
    boto3Session none region_name
  else
    boto3Session profile_name region_name

/-- The decimal digits of a positive integer, least significant first,
as characters; embeds Python's decimal formatting of `int`. -/
def decimalDigitsRev : Nat → List Char
  | 0 => []
  | n + 1 => Char.ofNat (48 + (n + 1) % 10) :: decimalDigitsRev ((n + 1) / 10)
termination_by n => n
decreasing_by exact Nat.div_lt_self (Nat.succ_pos _) (by decide)

/-- Python's `str(n)` / f-string formatting for a non-negative `int`. -/
def decimalRepr (n : Nat) : String :=
  if n = 0 then "0" else { data := (decimalDigitsRev n).reverse }

/-- Python's `s.split(sep)` for a one-character separator, as a list of
strings (split performed on the underlying character list). -/
def pySplit (s : String) (sep : Char) : List String :=
  (s.data.splitOn sep).map (fun l => { data := l })

/-- The responses the external services give during one `create_api`
run, together with the bound region and the wall clock read by
`time.time()` at the permission grant. -/
structure CreateEnv where
  region : String
  time : Nat
  getFunctionResp : Except ClientErr FnGetResponse
  createRestApiResp : Except ClientErr String
  getResourcesResp : Except ClientErr (List Resource)
  createResourceResp : Except ClientErr String
  putMethodResp : Except ClientErr Unit
  putIntegrationResp : Except ClientErr Unit
  putMethodResponseResp : Except ClientErr Unit
  putIntegrationResponseResp : Except ClientErr Unit
  addPermissionResp : Except ClientErr Unit
  createDeploymentResp : Except ClientErr String

/-- The result dict of a successful `create_api`. -/
structure CreateResult where
  api_id : String
  api_name : String
  lambda_name : String
  lambda_arn : String
  invoke_url : String
  deployment_id : String
  stage : String
deriving DecidableEq, Repr

/-- The result dict of a successful `delete_api`. -/
structure DeleteResult where
  status : String
  api_id : String
deriving DecidableEq, Repr

/-- `_get_lambda_function`: a `ClientError` with code
`ResourceNotFoundException` becomes `None`; any other `ClientError` is
re-raised; a normal response is returned. -/
def get_lambda_function (resp : Except ClientErr FnGetResponse) :
    Except ClientErr (Option FnGetResponse) :=
  match resp with
  | .ok r => .ok (some r)
  | .error e =>
    if e.code = "ResourceNotFoundException" then .ok none else .error e

/-- `create_api` from `aws_lambda_apigateway/core/api_gateway.py`,
returning the ordered list of control-plane calls issued and the Python
outcome.  Mirrors the source line by line: lambda lookup, REST API
creation, root-resource lookup by list indexing, child resource,
method, integration, method response, integration response, permission
grant (statement id from the wall clock), deployment, result dict. -/
def create_api (env : CreateEnv) (api_name lambda_name description : String) :
    List Call × Except PyError CreateResult :=
  let t0 := [Call.getFunction lambda_name]
  match get_lambda_function env.getFunctionResp with
  | .error e => (t0, .error (.clientError e))
  | .ok none =>
    (t0, .error (.valueError ("Lambda function " ++ lambda_name ++ " not found")))
  | .ok (some lambda_function) =>
    let t1 := t0 ++ [Call.createRestApi api_name description "REGIONAL"]
    match env.createRestApiResp with
    | .error e => (t1, .error (.clientError e))
    | .ok api_id =>
      let t2 := t1 ++ [Call.getResources api_id]
      match env.getResourcesResp with
      | .error e => (t2, .error (.clientError e))
      | .ok resources =>
        match (resources.filter (fun r => r.path = "/")).map (fun r => r.id) with
        | [] => (t2, .error .indexError)
        | root_id :: _ =>
          let t3 := t2 ++ [Call.createResource api_id root_id lambda_name]
          match env.createResourceResp with
          | .error e => (t3, .error (.clientError e))
          | .ok resource_id =>
            let t4 := t3 ++ [Call.putMethod api_id resource_id "POST" "NONE"]
            match env.putMethodResp with
            | .error e => (t4, .error (.clientError e))
            | .ok _ =>
              let lambda_arn := lambda_function.configuration.functionArn
              let region := env.region
              match (pySplit lambda_arn (Char.ofNat 58))[4]? with
              | none => (t4, .error .indexError)
              | some account_id =>
                let t5 := t4 ++ [Call.putIntegration api_id resource_id "POST" "AWS" "POST"
                  ("arn:aws:apigateway:" ++ region ++
                    ":lambda:path/2015-03-31/functions/" ++ lambda_arn ++ "/invocations")]
                match env.putIntegrationResp with
                | .error e => (t5, .error (.clientError e))
                | .ok _ =>
                  let t6 := t5 ++ [Call.putMethodResponse api_id resource_id "POST" "200"]
                  match env.putMethodResponseResp with
                  | .error e => (t6, .error (.clientError e))
                  | .ok _ =>
                    let t7 := t6 ++ [Call.putIntegrationResponse api_id resource_id "POST" "200"]
                    match env.putIntegrationResponseResp with
                    | .error e => (t7, .error (.clientError e))
                    | .ok _ =>
                      let source_arn := "arn:aws:execute-api:" ++ region ++ ":" ++
                        account_id ++ ":" ++ api_id ++ "/*/*/" ++ lambda_name
                      let statement_id := "apigateway-" ++ decimalRepr env.time
                      let t8 := t7 ++ [Call.addPermission lambda_name statement_id
                        "lambda:InvokeFunction" "apigateway.amazonaws.com" source_arn]
                      match env.addPermissionResp with
                      | .error e => (t8, .error (.clientError e))
                      | .ok _ =>
                        let t9 := t8 ++ [Call.createDeployment api_id "prod"]
                        match env.createDeploymentResp with
                        | .error e => (t9, .error (.clientError e))
                        | .ok deployment_id =>
                          (t9, .ok {
                            api_id := api_id
                            api_name := api_name
                            lambda_name := lambda_name
                            lambda_arn := lambda_arn
                            invoke_url := "https://" ++ api_id ++ ".execute-api." ++
                              region ++ ".amazonaws.com/prod/" ++ lambda_name
                            deployment_id := deployment_id
                            stage := "prod" })

/-- `delete_api`: one `delete_rest_api` call; the response is ignored
and the fixed result dict is returned. -/
def delete_api (resp : Except ClientErr Unit) (api_id : String) :
    List Call × Except PyError DeleteResult :=
  ([Call.deleteRestApi api_id],
    match resp with
    | .error e => .error (.clientError e)
    | .ok _ => .ok { status := "deleted", api_id := api_id })

/-- The responses the control plane gives during one `test_invoke_api`
run. -/
structure TestInvokeEnv where
  getResourcesResp : Except ClientErr (List Resource)
  testInvokeResp : Except ClientErr TestInvokeResponse

/-- `_get_resource_id`: lists the endpoint's resources and returns the
id of the first node whose path equals `resource_path` exactly, raising
`ValueError` when none matches. -/
def get_resource_id (env : TestInvokeEnv) (api_id resource_path : String) :
    List Call × Except PyError String :=
  ([Call.getResources api_id],
    match env.getResourcesResp with
    | .error e => .error (.clientError e)
    | .ok resources =>
      match resources.find? (fun r => r.path = resource_path) with
      | some r => .ok r.id
      | none => .error (.valueError ("Resource not found: " ++ resource_path)))

/-- Python's `body or '\x7b\x7d'`: `None` and the empty string are
replaced by the two-character JSON-empty-object string. -/
def bodyOrDefault : Option String → String
  | none => "\x7b\x7d"
  | some s => if s = "" then "\x7b\x7d" else s

/-- `test_invoke_api`: resolve the path to a resource id (issuing a
`get_resources` call), then issue `test_invoke_method` with the
defaulted body and return its raw response. -/
def test_invoke_api (env : TestInvokeEnv) (api_id resource_path http_method : String)
    (body : Option String) : List Call × Except PyError TestInvokeResponse :=
  match get_resource_id env api_id resource_path with
  | (t, .error e) => (t, .error e)
  | (t, .ok resource_id) =>
    let t1 := t ++ [Call.testInvokeMethod api_id resource_id http_method (bodyOrDefault body)]
    match env.testInvokeResp with
    | .error e => (t1, .error (.clientError e))
    | .ok r => (t1, .ok r)

/-- The statement ids of the permission-grant calls in a trace. -/
def permStatementIds (trace : List Call) : List String :=
  trace.filterMap fun c =>
    match c with
    | .addPermission _ sid _ _ _ => some sid
    | _ => none

/-! ### Decimal formatting lemmas -/

/-- Digit characters are distinct across the ten decimal digits. -/
theorem digitCharFin_inj : ∀ a b : Fin 10,
    Char.ofNat (48 + a.val) = Char.ofNat (48 + b.val) → a = b := by decide

/-- Digit characters of digits below ten determine the digit. -/
theorem digitChar_inj (a b : Nat) (ha : a < 10) (hb : b < 10)
    (h : Char.ofNat (48 + a) = Char.ofNat (48 + b)) : a = b := by
  have := digitCharFin_inj ⟨a, ha⟩ ⟨b, hb⟩ h
  exact congrArg Fin.val this

/-- The digit list is empty exactly for zero. -/
theorem decimalDigitsRev_eq_nil {n : Nat} (h : decimalDigitsRev n = []) : n = 0 := by
  cases n with
  | zero => rfl
  | succ m => simp [decimalDigitsRev] at h

/-- The least-significant-first decimal digit list is injective. -/
theorem decimalDigitsRev_inj (m : Nat) : ∀ n, decimalDigitsRev m = decimalDigitsRev n → m = n := by
  induction m using Nat.strong_induction_on with
  | _ m ih =>
    intro n h
    match m, n with
    | 0, 0 => rfl
    | 0, n + 1 => simp [decimalDigitsRev] at h
    | m + 1, 0 => simp [decimalDigitsRev] at h
    | m + 1, n + 1 =>
      rw [decimalDigitsRev, decimalDigitsRev] at h
      simp only [List.cons.injEq] at h
      obtain ⟨h1, h2⟩ := h
      have hd : (m + 1) % 10 = (n + 1) % 10 :=
        digitChar_inj _ _ (Nat.mod_lt _ (by decide)) (Nat.mod_lt _ (by decide)) h1
      have ht : (m + 1) / 10 = (n + 1) / 10 :=
        ih ((m + 1) / 10) (Nat.div_lt_self (Nat.succ_pos _) (by decide)) _ h2
      omega

/-- A nonzero number's digit string is never `"0"`. -/
theorem decimalRepr_ne_zero {n : Nat} (hn : n ≠ 0) :
    ({ data := (decimalDigitsRev n).reverse } : String) ≠ "0" := by
  intro h
  have hdata : (decimalDigitsRev n).reverse = ['0'] := by
    have := congrArg String.data h
    simpa using this
  have hsing : decimalDigitsRev n = ['0'] := by
    have := congrArg List.reverse hdata
    simpa using this
  match n, hsing with
  | m + 1, hsing =>
    rw [decimalDigitsRev] at hsing
    simp only [List.cons.injEq] at hsing
    obtain ⟨h1, h2⟩ := hsing
    have h10 : (m + 1) / 10 = 0 := decimalDigitsRev_eq_nil h2
    have hz : (m + 1) % 10 = 0 := by
      have : ('0' : Char) = Char.ofNat (48 + 0) := by decide
      rw [this] at h1
      exact digitChar_inj _ _ (Nat.mod_lt _ (by decide)) (by decide) h1
    omega

/-- Python's decimal formatting of non-negative integers is injective. -/
theorem decimalRepr_inj (m n : Nat) (h : decimalRepr m = decimalRepr n) : m = n := by
  by_cases hm : m = 0
  · by_cases hn : n = 0
    · omega
    · rw [decimalRepr, decimalRepr, if_pos hm, if_neg hn] at h
      exact absurd h.symm (decimalRepr_ne_zero hn)
  · by_cases hn : n = 0
    · rw [decimalRepr, decimalRepr, if_neg hm, if_pos hn] at h
      exact absurd h (decimalRepr_ne_zero hm)
    · rw [decimalRepr, decimalRepr, if_neg hm, if_neg hn] at h
      have hdata := congrArg String.data h
      have hrev : decimalDigitsRev m = decimalDigitsRev n := by
        have := congrArg List.reverse hdata
        simpa using this
      exact decimalDigitsRev_inj m n hrev

/-! ### Normal forms for `create_api` runs -/

/-- When every control-plane response succeeds, `create_api` issues the
full ordered call sequence and returns the result dict of the source. -/
theorem create_api_success_eq (env : CreateEnv) (a f d : String)
    (fn : FnGetResponse) (api_id : String) (resources : List Resource)
    (rid : String) (rest : List String) (res_id acct dep_id : String)
    (u1 u2 u3 u4 u5 : Unit)
    (hfn : env.getFunctionResp = .ok fn)
    (hapi : env.createRestApiResp = .ok api_id)
    (hres : env.getResourcesResp = .ok resources)
    (hroot : (resources.filter (fun x => x.path = "/")).map (fun x => x.id) = rid :: rest)
    (hcr : env.createResourceResp = .ok res_id)
    (hpm : env.putMethodResp = .ok u1)
    (hacct : (pySplit fn.configuration.functionArn (Char.ofNat 58))[4]? = some acct)
    (hpi : env.putIntegrationResp = .ok u2)
    (hpmr : env.putMethodResponseResp = .ok u3)
    (hpir : env.putIntegrationResponseResp = .ok u4)
    (hap : env.addPermissionResp = .ok u5)
    (hdep : env.createDeploymentResp = .ok dep_id) :
    create_api env a f d =
      ([Call.getFunction f,
        Call.createRestApi a d "REGIONAL",
        Call.getResources api_id,
        Call.createResource api_id rid f,
        Call.putMethod api_id res_id "POST" "NONE",
        Call.putIntegration api_id res_id "POST" "AWS" "POST"
          ("arn:aws:apigateway:" ++ env.region ++ ":lambda:path/2015-03-31/functions/" ++
            fn.configuration.functionArn ++ "/invocations"),
        Call.putMethodResponse api_id res_id "POST" "200",
        Call.putIntegrationResponse api_id res_id "POST" "200",
        Call.addPermission f ("apigateway-" ++ decimalRepr env.time)
          "lambda:InvokeFunction" "apigateway.amazonaws.com"
          ("arn:aws:execute-api:" ++ env.region ++ ":" ++ acct ++ ":" ++ api_id ++
            "/*/*/" ++ f),
        Call.createDeployment api_id "prod"],
       .ok { api_id := api_id, api_name := a, lambda_name := f,
             lambda_arn := fn.configuration.functionArn,
             invoke_url := "https://" ++ api_id ++ ".execute-api." ++ env.region ++
               ".amazonaws.com/prod/" ++ f,
             deployment_id := dep_id, stage := "prod" }) := by
  simp [create_api, get_lambda_function, hfn, hapi, hres, hroot, hcr, hpm, hacct,
    hpi, hpmr, hpir, hap, hdep]

/-- A successful `create_api` run forces every control-plane response
in the environment to have been a success. -/
theorem create_api_ok_inv (env : CreateEnv) (a f d : String) (r : CreateResult)
    (h : (create_api env a f d).2 = .ok r) :
    ∃ fn api_id resources rid rest res_id acct dep_id,
      env.getFunctionResp = .ok fn ∧
      env.createRestApiResp = .ok api_id ∧
      env.getResourcesResp = .ok resources ∧
      (resources.filter (fun x => x.path = "/")).map (fun x => x.id) = rid :: rest ∧
      env.createResourceResp = .ok res_id ∧
      env.putMethodResp = .ok () ∧
      (pySplit fn.configuration.functionArn (Char.ofNat 58))[4]? = some acct ∧
      env.putIntegrationResp = .ok () ∧
      env.putMethodResponseResp = .ok () ∧
      env.putIntegrationResponseResp = .ok () ∧
      env.addPermissionResp = .ok () ∧
      env.createDeploymentResp = .ok dep_id := by
  cases hfn : env.getFunctionResp with
  | error e =>
    by_cases hc : e.code = "ResourceNotFoundException" <;>
      simp [create_api, get_lambda_function, hfn, hc] at h
  | ok fn =>
  cases hapi : env.createRestApiResp with
  | error e => simp [create_api, get_lambda_function, hfn, hapi] at h
  | ok api_id =>
  cases hres : env.getResourcesResp with
  | error e => simp [create_api, get_lambda_function, hfn, hapi, hres] at h
  | ok resources =>
  cases hroot : (resources.filter (fun x => x.path = "/")).map (fun x => x.id) with
  | nil => simp [create_api, get_lambda_function, hfn, hapi, hres, hroot] at h
  | cons rid rest =>
  cases hcr : env.createResourceResp with
  | error e => simp [create_api, get_lambda_function, hfn, hapi, hres, hroot, hcr] at h
  | ok res_id =>
  cases hpm : env.putMethodResp with
  | error e => simp [create_api, get_lambda_function, hfn, hapi, hres, hroot, hcr, hpm] at h
  | ok u1 =>
  cases hacct : (pySplit fn.configuration.functionArn (Char.ofNat 58))[4]? with
  | none =>
    simp [create_api, get_lambda_function, hfn, hapi, hres, hroot, hcr, hpm, hacct] at h
  | some acct =>
  cases hpi : env.putIntegrationResp with
  | error e =>
    simp [create_api, get_lambda_function, hfn, hapi, hres, hroot, hcr, hpm, hacct, hpi] at h
  | ok u2 =>
  cases hpmr : env.putMethodResponseResp with
  | error e =>
    simp [create_api, get_lambda_function, hfn, hapi, hres, hroot, hcr, hpm, hacct, hpi,
      hpmr] at h
  | ok u3 =>
  cases hpir : env.putIntegrationResponseResp with
  | error e =>
    simp [create_api, get_lambda_function, hfn, hapi, hres, hroot, hcr, hpm, hacct, hpi,
      hpmr, hpir] at h
  | ok u4 =>
  cases hap : env.addPermissionResp with
  | error e =>
    simp [create_api, get_lambda_function, hfn, hapi, hres, hroot, hcr, hpm, hacct, hpi,
      hpmr, hpir, hap] at h
  | ok u5 =>
  cases hdep : env.createDeploymentResp with
  | error e =>
    simp [create_api, get_lambda_function, hfn, hapi, hres, hroot, hcr, hpm, hacct, hpi,
      hpmr, hpir, hap, hdep] at h
  | ok dep_id =>
    obtain ⟨⟩ := u1
    obtain ⟨⟩ := u2
    obtain ⟨⟩ := u3
    obtain ⟨⟩ := u4
    obtain ⟨⟩ := u5
    exact ⟨fn, api_id, resources, rid, rest, res_id, acct, dep_id,
      rfl, rfl, rfl, hroot, rfl, rfl, hacct, rfl, rfl, rfl, rfl, rfl⟩

/-! ### Concrete environments (the spec's worked example) -/

/-- The spec's worked example environment: the registry returns the
demo-fn ARN, the gateway returns id `api123`, root node `root123`, new
node `node123`, and every call succeeds. -/
def demoEnv : CreateEnv where
  region := "us-east-1"
  time := 0
  getFunctionResp := .ok { configuration :=
    { functionArn := "arn:aws:lambda:us-east-1:123456789012:function:demo-fn" } }
  createRestApiResp := .ok "api123"
  getResourcesResp := .ok [{ id := "root123", path := "/" }]
  createResourceResp := .ok "node123"
  putMethodResp := .ok ()
  putIntegrationResp := .ok ()
  putMethodResponseResp := .ok ()
  putIntegrationResponseResp := .ok ()
  addPermissionResp := .ok ()
  createDeploymentResp := .ok "dep123"

/-- The result dict of the worked example run. -/
def demoResult : CreateResult where
  api_id := "api123"
  api_name := "demo-api"
  lambda_name := "demo-fn"
  lambda_arn := "arn:aws:lambda:us-east-1:123456789012:function:demo-fn"
  invoke_url := "https://api123.execute-api.us-east-1.amazonaws.com/prod/demo-fn"
  deployment_id := "dep123"
  stage := "prod"

/-- The worked example succeeds with `demoResult` (time left generic so
the statement id stays symbolic). -/
theorem demoEnv_time_ok (t : Nat) :
    (create_api { demoEnv with time := t } "demo-api" "demo-fn" "desc").2 =
      .ok demoResult := by
  have h := create_api_success_eq { demoEnv with time := t } "demo-api" "demo-fn" "desc"
    { configuration :=
      { functionArn := "arn:aws:lambda:us-east-1:123456789012:function:demo-fn" } }
    "api123" [{ id := "root123", path := "/" }] "root123" [] "node123" "123456789012"
    "dep123" () () () () () rfl rfl rfl (by decide) rfl rfl (by decide) rfl rfl rfl rfl rfl
  rw [h]
  rfl

/-- The worked example (at clock 0) succeeds with `demoResult`. -/
theorem demoEnv_ok :
    (create_api demoEnv "demo-api" "demo-fn" "desc").2 = .ok demoResult :=
  demoEnv_time_ok 0

/-- The registry's error for a missing function. -/
def missingFnErr : ClientErr :=
  { code := "ResourceNotFoundException", msg := "Function not found" }

/-- A run whose target function the registry reports as missing. -/
def missingFnEnv : CreateEnv :=
  { demoEnv with getFunctionResp := .error missingFnErr }

/-- A resource node that is not the root path. -/
def fooNode : Resource := { id := "child1", path := "/foo" }

/-- A run whose resource listing holds no node with path `/`. -/
def noRootEnv : CreateEnv :=
  { demoEnv with getResourcesResp := .ok [fooNode] }

/-! ### Claim theorems -/

/-- Claim C1: when the registry reports `function_name` as not found,
`create_api` fails with the local not-found error before contacting the
gateway: the run raises the `ValueError`, issues zero gateway
control-plane calls, and in particular creates no endpoint container. -/
theorem create_api_function_not_found_no_gateway_calls
    (env : CreateEnv) (a f d : String) (e : ClientErr)
    (hfn : env.getFunctionResp = .error e)
    (hcode : e.code = "ResourceNotFoundException") :
    create_api env a f d =
      ([Call.getFunction f],
       .error (.valueError ("Lambda function " ++ f ++ " not found"))) ∧
    (create_api env a f d).1.filter (fun c => c.isGatewayCall) = [] ∧
    (∀ n desc ty, Call.createRestApi n desc ty ∉ (create_api env a f d).1) := by
  have hrun : create_api env a f d =
      ([Call.getFunction f],
       .error (.valueError ("Lambda function " ++ f ++ " not found"))) := by
    simp [create_api, get_lambda_function, hfn, hcode]
  refine ⟨hrun, ?_, ?_⟩
  · rw [hrun]
    rfl
  · intro n desc ty hmem
    rw [hrun] at hmem
    simp at hmem

/-- Witness for C1: the not-found run at the worked example arguments. -/
theorem create_api_function_not_found_no_gateway_calls_witness :
    create_api missingFnEnv "demo-api" "demo-fn" "desc" =
      ([Call.getFunction "demo-fn"],
       .error (.valueError ("Lambda function " ++ "demo-fn" ++ " not found"))) ∧
    (create_api missingFnEnv "demo-api" "demo-fn" "desc").1.filter
      (fun c => c.isGatewayCall) = [] ∧
    (∀ n desc ty,
      Call.createRestApi n desc ty ∉ (create_api missingFnEnv "demo-api" "demo-fn" "desc").1) :=
  create_api_function_not_found_no_gateway_calls missingFnEnv "demo-api" "demo-fn" "desc"
    missingFnErr rfl rfl

/-- Claim C2: every successful `create_api` returns an invoke URL of
exactly `https://` + endpoint id + `.execute-api.` + region +
`.amazonaws.com/prod/` + function name, and stage `"prod"`. -/
theorem create_api_invoke_url_shape (env : CreateEnv) (a f d : String) (r : CreateResult)
    (h : (create_api env a f d).2 = .ok r) :
    r.invoke_url = "https://" ++ r.api_id ++ ".execute-api." ++ env.region ++
      ".amazonaws.com/prod/" ++ f ∧ r.stage = "prod" := by
  obtain ⟨fn, api_id, resources, rid, rest, res_id, acct, dep_id,
    hfn, hapi, hres, hroot, hcr, hpm, hacct, hpi, hpmr, hpir, hap, hdep⟩ :=
    create_api_ok_inv env a f d r h
  have heq := create_api_success_eq env a f d fn api_id resources rid rest res_id acct
    dep_id () () () () () hfn hapi hres hroot hcr hpm hacct hpi hpmr hpir hap hdep
  rw [heq] at h
  simp only [Except.ok.injEq] at h
  subst h
  exact ⟨rfl, rfl⟩

/-- Witness for C2 at the worked example. -/
theorem create_api_invoke_url_shape_witness :
    demoResult.invoke_url = "https://" ++ demoResult.api_id ++ ".execute-api." ++
      demoEnv.region ++ ".amazonaws.com/prod/" ++ "demo-fn" ∧
    demoResult.stage = "prod" :=
  create_api_invoke_url_shape demoEnv "demo-api" "demo-fn" "desc" demoResult demoEnv_ok

/-- Claim C6: a successful `delete_api` returns exactly
`status = "deleted"` with the given id, and the run's trace is exactly
one deletion call carrying that id and nothing else. -/
theorem delete_api_exactly_one_call (resp : Except ClientErr Unit) (api_id : String)
    (r : DeleteResult) (h : (delete_api resp api_id).2 = .ok r) :
    r = { status := "deleted", api_id := api_id } ∧
    (delete_api resp api_id).1 = [Call.deleteRestApi api_id] := by
  cases resp with
  | error e => simp [delete_api] at h
  | ok u =>
    simp only [delete_api, Except.ok.injEq] at h
    exact ⟨h.symm, rfl⟩

/-- Witness for C6 at a concrete id. -/
theorem delete_api_exactly_one_call_witness :
    ({ status := "deleted", api_id := "api123" } : DeleteResult) =
      { status := "deleted", api_id := "api123" } ∧
    (delete_api (.ok ()) "api123").1 = [Call.deleteRestApi "api123"] :=
  delete_api_exactly_one_call (.ok ()) "api123"
    { status := "deleted", api_id := "api123" } rfl

/-- Claim C7: the session resolver binds exactly the requested
profile/region pair: the sentinel `"latest"` omits the profile and
binds only the region, a non-empty non-sentinel name binds that named
profile with the region, an absent profile binds the ambient default
chain with the region.  Holds for both `ProfileManager.get_session`
and `APIGatewayLambdaIntegration._create_session`. -/
theorem session_resolver_binding (p r : Option String) :
    (p = some "latest" →
      get_session p r = .ambient r ∧ create_session p r = .ambient r) ∧
    (∀ s, p = some s → s ≠ "latest" → s ≠ "" →
      get_session p r = .namedProfile s r ∧ create_session p r = .namedProfile s r) ∧
    (p = none →
      get_session p r = .ambient r ∧ create_session p r = .ambient r) := by
  refine ⟨?_, ?_, ?_⟩
  · rintro rfl
    exact ⟨rfl, rfl⟩
  · rintro s rfl hlatest hempty
    constructor
    · simp [get_session, boto3Session, strTruthy, hlatest, hempty]
    · simp [create_session, boto3Session, hlatest]
  · rintro rfl
    exact ⟨rfl, rfl⟩

/-- Witness for C7 at concrete profile/region values. -/
theorem session_resolver_binding_witness :
    (get_session (some "latest") (some "us-east-1") = .ambient (some "us-east-1") ∧
      create_session (some "latest") (some "us-east-1") = .ambient (some "us-east-1")) ∧
    (get_session (some "dev") (some "us-east-1") = .namedProfile "dev" (some "us-east-1") ∧
      create_session (some "dev") (some "us-east-1") = .namedProfile "dev" (some "us-east-1")) ∧
    (get_session none none = .ambient none ∧ create_session none none = .ambient none) :=
  ⟨(session_resolver_binding (some "latest") (some "us-east-1")).1 rfl,
   (session_resolver_binding (some "dev") (some "us-east-1")).2.1 "dev" rfl
     (by decide) (by decide),
   (session_resolver_binding none none).2.2 rfl⟩

/-- Claim C8: when the post-creation resource listing has no node with
path `/`, `create_api` aborts with the unguarded `IndexError` (not the
local ValueError and not a ClientError), and only after the endpoint
container creation call was already issued. -/
theorem create_api_missing_root_index_error (env : CreateEnv) (a f d : String)
    (fn : FnGetResponse) (api_id : String) (resources : List Resource)
    (hfn : env.getFunctionResp = .ok fn)
    (hapi : env.createRestApiResp = .ok api_id)
    (hres : env.getResourcesResp = .ok resources)
    (hroot : resources.filter (fun x => x.path = "/") = []) :
    (create_api env a f d).2 = .error .indexError ∧
    Call.createRestApi a d "REGIONAL" ∈ (create_api env a f d).1 ∧
    (∀ e, (create_api env a f d).2 ≠ .error (.clientError e)) ∧
    (∀ m, (create_api env a f d).2 ≠ .error (.valueError m)) := by
  have hmap : (resources.filter (fun x => x.path = "/")).map (fun x => x.id) = [] := by
    rw [hroot]
    rfl
  have hrun : create_api env a f d =
      ([Call.getFunction f, Call.createRestApi a d "REGIONAL", Call.getResources api_id],
       .error .indexError) := by
    simp [create_api, get_lambda_function, hfn, hapi, hres, hmap]
  refine ⟨by rw [hrun], by rw [hrun]; simp, ?_, ?_⟩
  · intro e
    rw [hrun]
    simp
  · intro m
    rw [hrun]
    simp

/-- Witness for C8: a listing whose only node has path `/foo`. -/
theorem create_api_missing_root_index_error_witness :
    (create_api noRootEnv "demo-api" "demo-fn" "desc").2 = .error .indexError ∧
    Call.createRestApi "demo-api" "desc" "REGIONAL" ∈
      (create_api noRootEnv "demo-api" "demo-fn" "desc").1 ∧
    (∀ e, (create_api noRootEnv "demo-api" "demo-fn" "desc").2 ≠
      .error (.clientError e)) ∧
    (∀ m, (create_api noRootEnv "demo-api" "demo-fn" "desc").2 ≠
      .error (.valueError m)) :=
  create_api_missing_root_index_error noRootEnv "demo-api" "demo-fn" "desc"
    { configuration :=
      { functionArn := "arn:aws:lambda:us-east-1:123456789012:function:demo-fn" } }
    "api123" [fooNode] rfl rfl rfl (by decide)

/-- Claim C3: every successful `create_api` issues exactly one
invoke-permission grant, whose source ARN is exactly
`arn:aws:execute-api:` + region + `:` + account id + `:` + endpoint id
+ `/*/*/` + function name, where the account id is the fifth
colon-separated field of the ARN the registry returned. -/
theorem create_api_single_permission_grant (env : CreateEnv) (a f d : String)
    (r : CreateResult) (fn : FnGetResponse) (acct : String)
    (h : (create_api env a f d).2 = .ok r)
    (hfn : env.getFunctionResp = .ok fn)
    (hacct : (pySplit fn.configuration.functionArn (Char.ofNat 58))[4]? = some acct) :
    (create_api env a f d).1.filter (fun c => c.isPermCall) =
      [Call.addPermission f ("apigateway-" ++ decimalRepr env.time)
        "lambda:InvokeFunction" "apigateway.amazonaws.com"
        ("arn:aws:execute-api:" ++ env.region ++ ":" ++ acct ++ ":" ++ r.api_id ++
          "/*/*/" ++ f)] := by
  obtain ⟨fn2, api_id, resources, rid, rest, res_id, acct2, dep_id,
    hfn2, hapi, hres, hroot, hcr, hpm, hacct2, hpi, hpmr, hpir, hap, hdep⟩ :=
    create_api_ok_inv env a f d r h
  rw [hfn] at hfn2
  injection hfn2 with hfn2
  subst hfn2
  rw [hacct] at hacct2
  injection hacct2 with hacct2
  subst hacct2
  have heq := create_api_success_eq env a f d fn api_id resources rid rest res_id acct
    dep_id () () () () () hfn hapi hres hroot hcr hpm hacct hpi hpmr hpir hap hdep
  rw [heq] at h ⊢
  simp only [Except.ok.injEq] at h
  subst h
  rfl

/-- Witness for C3 at the worked example: the source ARN is exactly
`arn:aws:execute-api:us-east-1:123456789012:api123/\*/\*/demo-fn`. -/
theorem create_api_single_permission_grant_witness :
    (create_api demoEnv "demo-api" "demo-fn" "desc").1.filter
      (fun c => c.isPermCall) =
      [Call.addPermission "demo-fn" ("apigateway-" ++ decimalRepr demoEnv.time)
        "lambda:InvokeFunction" "apigateway.amazonaws.com"
        ("arn:aws:execute-api:" ++ demoEnv.region ++ ":" ++ "123456789012" ++ ":" ++
          demoResult.api_id ++ "/*/*/" ++ "demo-fn")] :=
  create_api_single_permission_grant demoEnv "demo-api" "demo-fn" "desc" demoResult
    { configuration :=
      { functionArn := "arn:aws:lambda:us-east-1:123456789012:function:demo-fn" } }
    "123456789012" demoEnv_ok rfl (by decide)

/-- Claim C5: `test_invoke_api` with a path matching no node fails with
the local ResourceNotFound `ValueError` and never issues the
test-invoke call; with an exactly matching node, the invocation is
issued against that node's id and its raw result returned unmodified. -/
theorem test_invoke_path_resolution (env : TestInvokeEnv) (api_id path m : String)
    (b : Option String) (resources : List Resource)
    (hres : env.getResourcesResp = .ok resources) :
    ((∀ x ∈ resources, x.path ≠ path) →
      test_invoke_api env api_id path m b =
        ([Call.getResources api_id],
         .error (.valueError ("Resource not found: " ++ path)))) ∧
    (∀ node resp, resources.find? (fun x => x.path = path) = some node →
      env.testInvokeResp = .ok resp →
      (test_invoke_api env api_id path m b).2 = .ok resp ∧
      (test_invoke_api env api_id path m b).1 =
        [Call.getResources api_id,
         Call.testInvokeMethod api_id node.id m (bodyOrDefault b)]) := by
  constructor
  · intro hnone
    have hfind : resources.find? (fun x => x.path = path) = none := by
      rw [List.find?_eq_none]
      intro x hx
      simp [hnone x hx]
    simp [test_invoke_api, get_resource_id, hres, hfind]
  · intro node resp hfind hti
    constructor <;> simp [test_invoke_api, get_resource_id, hres, hfind, hti]

/-- A resource listing for the test-invoke runs. -/
def demoNodes : List Resource :=
  [{ id := "root123", path := "/" }, { id := "node123", path := "/demo-fn" }]

/-- The test-invoke environment of the worked example. -/
def demoTestEnv : TestInvokeEnv where
  getResourcesResp := .ok demoNodes
  testInvokeResp := .ok { status := "OK", statusCode := 200, body := "pong" }

/-- Witness for C5: a missing path fails locally, the exact path
`/demo-fn` is invoked against node `node123`. -/
theorem test_invoke_path_resolution_witness :
    ((∀ x ∈ demoNodes, x.path ≠ "/missing") →
      test_invoke_api demoTestEnv "api123" "/missing" "POST" none =
        ([Call.getResources "api123"],
         .error (.valueError ("Resource not found: " ++ "/missing")))) ∧
    (∀ node resp, demoNodes.find? (fun x => x.path = "/missing") = some node →
      demoTestEnv.testInvokeResp = .ok resp →
      (test_invoke_api demoTestEnv "api123" "/missing" "POST" none).2 = .ok resp ∧
      (test_invoke_api demoTestEnv "api123" "/missing" "POST" none).1 =
        [Call.getResources "api123",
         Call.testInvokeMethod "api123" node.id "POST" (bodyOrDefault none)]) :=
  test_invoke_path_resolution demoTestEnv "api123" "/missing" "POST" none demoNodes rfl

/-- Claim C10: the test invocation's body is exactly the JSON empty
object when the caller passes no body or an empty body, and the
caller's body unchanged when it is non-empty. -/
theorem test_invoke_body_defaulting (env : TestInvokeEnv) (api_id path m : String)
    (b : Option String) (resources : List Resource) (node : Resource)
    (hres : env.getResourcesResp = .ok resources)
    (hfind : resources.find? (fun x => x.path = path) = some node) :
    ((b = none ∨ b = some "") →
      (test_invoke_api env api_id path m b).1.filter (fun c => c.isTestInvokeCall) =
        [Call.testInvokeMethod api_id node.id m "\x7b\x7d"]) ∧
    (∀ s, b = some s → s ≠ "" →
      (test_invoke_api env api_id path m b).1.filter (fun c => c.isTestInvokeCall) =
        [Call.testInvokeMethod api_id node.id m s]) := by
  constructor
  · rintro (rfl | rfl) <;>
      cases hti : env.testInvokeResp <;>
      simp [test_invoke_api, get_resource_id, bodyOrDefault, hres, hfind, hti,
        Call.isTestInvokeCall]
  · rintro s rfl hs
    cases hti : env.testInvokeResp <;>
      simp [test_invoke_api, get_resource_id, bodyOrDefault, hres, hfind, hti, hs,
        Call.isTestInvokeCall]

/-- Witness for C10 at the worked example nodes and path `/demo-fn`. -/
theorem test_invoke_body_defaulting_witness :
    (((none : Option String) = none ∨ (none : Option String) = some "") →
      (test_invoke_api demoTestEnv "api123" "/demo-fn" "POST" none).1.filter
        (fun c => c.isTestInvokeCall) =
        [Call.testInvokeMethod "api123" "node123" "POST" "\x7b\x7d"]) ∧
    (∀ s, (none : Option String) = some s → s ≠ "" →
      (test_invoke_api demoTestEnv "api123" "/demo-fn" "POST" none).1.filter
        (fun c => c.isTestInvokeCall) =
        [Call.testInvokeMethod "api123" "node123" "POST" s]) :=
  test_invoke_body_defaulting demoTestEnv "api123" "/demo-fn" "POST" none demoNodes
    { id := "node123", path := "/demo-fn" } rfl (by decide)

/-! ### Failure points of the create procedure (claim C4) -/

/-- The control-plane calls of `create` at which a `ClientError` can
abort the procedure: spec steps 2-9 (step 7 covers both fixed-200
response attachments). -/
inductive FailStep where
  | createRestApi
  | getResources
  | createResource
  | putMethod
  | putIntegration
  | putMethodResponse
  | putIntegrationResponse
  | addPermission
  | createDeployment
deriving DecidableEq, Repr

/-- The spec step number of a failure point. -/
def FailStep.specNo : FailStep → Nat
  | .createRestApi => 2
  | .getResources => 3
  | .createResource => 4
  | .putMethod => 5
  | .putIntegration => 6
  | .putMethodResponse => 7
  | .putIntegrationResponse => 7
  | .addPermission => 8
  | .createDeployment => 9

/-- The error part of a response. -/
def errOf {α : Type} : Except ClientErr α → Option ClientErr
  | .error e => some e
  | .ok _ => none

/-- The environment's error at a failure point, when it errs there. -/
def errAt (env : CreateEnv) : FailStep → Option ClientErr
  | .createRestApi => errOf env.createRestApiResp
  | .getResources => errOf env.getResourcesResp
  | .createResource => errOf env.createResourceResp
  | .putMethod => errOf env.putMethodResp
  | .putIntegration => errOf env.putIntegrationResp
  | .putMethodResponse => errOf env.putMethodResponseResp
  | .putIntegrationResponse => errOf env.putIntegrationResponseResp
  | .addPermission => errOf env.addPermissionResp
  | .createDeployment => errOf env.createDeploymentResp

/-- The container creation succeeded. -/
def okApi (env : CreateEnv) : Prop := ∃ v, env.createRestApiResp = .ok v

/-- The resource listing succeeded and held a root path node. -/
def okRoot (env : CreateEnv) : Prop :=
  ∃ resources rid rest, env.getResourcesResp = .ok resources ∧
    (resources.filter (fun x => x.path = "/")).map (fun x => x.id) = rid :: rest

/-- The child resource creation succeeded. -/
def okRes (env : CreateEnv) : Prop := ∃ v, env.createResourceResp = .ok v

/-- The method attachment succeeded. -/
def okPM (env : CreateEnv) : Prop := env.putMethodResp = .ok ()

/-- The registry ARN has a fifth colon-separated field. -/
def okSplit (fn : FnGetResponse) : Prop :=
  ∃ acct, (pySplit fn.configuration.functionArn (Char.ofNat 58))[4]? = some acct

/-- The integration attachment succeeded. -/
def okPI (env : CreateEnv) : Prop := env.putIntegrationResp = .ok ()

/-- The method response attachment succeeded. -/
def okPMR (env : CreateEnv) : Prop := env.putMethodResponseResp = .ok ()

/-- The integration response attachment succeeded. -/
def okPIR (env : CreateEnv) : Prop := env.putIntegrationResponseResp = .ok ()

/-- The permission grant succeeded. -/
def okAP (env : CreateEnv) : Prop := env.addPermissionResp = .ok ()

/-- Everything the run does strictly before a failure point succeeded
(the step-1 registry lookup having already returned `fn`). -/
def okBefore (env : CreateEnv) (fn : FnGetResponse) : FailStep → Prop
  | .createRestApi => True
  | .getResources => okApi env
  | .createResource => okApi env ∧ okRoot env
  | .putMethod => okApi env ∧ okRoot env ∧ okRes env
  | .putIntegration => okApi env ∧ okRoot env ∧ okRes env ∧ okPM env ∧ okSplit fn
  | .putMethodResponse =>
      okApi env ∧ okRoot env ∧ okRes env ∧ okPM env ∧ okSplit fn ∧ okPI env
  | .putIntegrationResponse =>
      okApi env ∧ okRoot env ∧ okRes env ∧ okPM env ∧ okSplit fn ∧ okPI env ∧ okPMR env
  | .addPermission =>
      okApi env ∧ okRoot env ∧ okRes env ∧ okPM env ∧ okSplit fn ∧ okPI env ∧
        okPMR env ∧ okPIR env
  | .createDeployment =>
      okApi env ∧ okRoot env ∧ okRes env ∧ okPM env ∧ okSplit fn ∧ okPI env ∧
        okPMR env ∧ okPIR env ∧ okAP env

/-- An erring response is an error. -/
theorem errOf_eq_some {α : Type} {x : Except ClientErr α} {e : ClientErr}
    (h : errOf x = some e) : x = .error e := by
  cases x with
  | error e2 =>
    injection h with h
    rw [h]
  | ok v => simp [errOf] at h

/-- Claim C4: when the control-plane call at step k (2-9) fails, the
error propagates unmodified to the caller, no call of a later step is
issued, and no undo or compensation call is issued for the resources
created by the earlier steps. -/
theorem create_api_abort_no_rollback (env : CreateEnv) (a f d : String)
    (fn : FnGetResponse) (s : FailStep) (e : ClientErr)
    (hfn : env.getFunctionResp = .ok fn)
    (hpre : okBefore env fn s)
    (herr : errAt env s = some e) :
    (create_api env a f d).2 = .error (.clientError e) ∧
    (∀ c ∈ (create_api env a f d).1, c.step ≤ s.specNo) ∧
    (∀ c ∈ (create_api env a f d).1, c.isUndoCall = false) := by
  cases s with
  | createRestApi =>
    have hx := errOf_eq_some herr
    refine ⟨?_, ?_, ?_⟩ <;>
      simp [create_api, get_lambda_function, hfn, hx, Call.step, FailStep.specNo,
        Call.isUndoCall]
  | getResources =>
    obtain ⟨api_id, hapi⟩ := hpre
    have hx := errOf_eq_some herr
    refine ⟨?_, ?_, ?_⟩ <;>
      simp [create_api, get_lambda_function, hfn, hapi, hx, Call.step, FailStep.specNo,
        Call.isUndoCall]
  | createResource =>
    obtain ⟨⟨api_id, hapi⟩, resources, rid, rest, hres, hroot⟩ := hpre
    have hx := errOf_eq_some herr
    refine ⟨?_, ?_, ?_⟩ <;>
      simp [create_api, get_lambda_function, hfn, hapi, hres, hroot, hx, Call.step,
        FailStep.specNo, Call.isUndoCall]
  | putMethod =>
    obtain ⟨⟨api_id, hapi⟩, ⟨resources, rid, rest, hres, hroot⟩, res_id, hcr⟩ := hpre
    have hx := errOf_eq_some herr
    refine ⟨?_, ?_, ?_⟩ <;>
      simp [create_api, get_lambda_function, hfn, hapi, hres, hroot, hcr, hx, Call.step,
        FailStep.specNo, Call.isUndoCall]
  | putIntegration =>
    obtain ⟨⟨api_id, hapi⟩, ⟨resources, rid, rest, hres, hroot⟩, ⟨res_id, hcr⟩,
      hpm, acct, hacct⟩ := hpre
    have hpm2 : env.putMethodResp = .ok () := hpm
    have hx := errOf_eq_some herr
    refine ⟨?_, ?_, ?_⟩ <;>
      simp [create_api, get_lambda_function, hfn, hapi, hres, hroot, hcr, hpm2, hacct,
        hx, Call.step, FailStep.specNo, Call.isUndoCall]
  | putMethodResponse =>
    obtain ⟨⟨api_id, hapi⟩, ⟨resources, rid, rest, hres, hroot⟩, ⟨res_id, hcr⟩,
      hpm, ⟨acct, hacct⟩, hpi⟩ := hpre
    have hpm2 : env.putMethodResp = .ok () := hpm
    have hpi2 : env.putIntegrationResp = .ok () := hpi
    have hx := errOf_eq_some herr
    refine ⟨?_, ?_, ?_⟩ <;>
      simp [create_api, get_lambda_function, hfn, hapi, hres, hroot, hcr, hpm2, hacct,
        hpi2, hx, Call.step, FailStep.specNo, Call.isUndoCall]
  | putIntegrationResponse =>
    obtain ⟨⟨api_id, hapi⟩, ⟨resources, rid, rest, hres, hroot⟩, ⟨res_id, hcr⟩,
      hpm, ⟨acct, hacct⟩, hpi, hpmr⟩ := hpre
    have hpm2 : env.putMethodResp = .ok () := hpm
    have hpi2 : env.putIntegrationResp = .ok () := hpi
    have hpmr2 : env.putMethodResponseResp = .ok () := hpmr
    have hx := errOf_eq_some herr
    refine ⟨?_, ?_, ?_⟩ <;>
      simp [create_api, get_lambda_function, hfn, hapi, hres, hroot, hcr, hpm2, hacct,
        hpi2, hpmr2, hx, Call.step, FailStep.specNo, Call.isUndoCall]
  | addPermission =>
    obtain ⟨⟨api_id, hapi⟩, ⟨resources, rid, rest, hres, hroot⟩, ⟨res_id, hcr⟩,
      hpm, ⟨acct, hacct⟩, hpi, hpmr, hpir⟩ := hpre
    have hpm2 : env.putMethodResp = .ok () := hpm
    have hpi2 : env.putIntegrationResp = .ok () := hpi
    have hpmr2 : env.putMethodResponseResp = .ok () := hpmr
    have hpir2 : env.putIntegrationResponseResp = .ok () := hpir
    have hx := errOf_eq_some herr
    refine ⟨?_, ?_, ?_⟩ <;>
      simp [create_api, get_lambda_function, hfn, hapi, hres, hroot, hcr, hpm2, hacct,
        hpi2, hpmr2, hpir2, hx, Call.step, FailStep.specNo, Call.isUndoCall]
  | createDeployment =>
    obtain ⟨⟨api_id, hapi⟩, ⟨resources, rid, rest, hres, hroot⟩, ⟨res_id, hcr⟩,
      hpm, ⟨acct, hacct⟩, hpi, hpmr, hpir, hap⟩ := hpre
    have hpm2 : env.putMethodResp = .ok () := hpm
    have hpi2 : env.putIntegrationResp = .ok () := hpi
    have hpmr2 : env.putMethodResponseResp = .ok () := hpmr
    have hpir2 : env.putIntegrationResponseResp = .ok () := hpir
    have hap2 : env.addPermissionResp = .ok () := hap
    have hx := errOf_eq_some herr
    refine ⟨?_, ?_, ?_⟩ <;>
      simp [create_api, get_lambda_function, hfn, hapi, hres, hroot, hcr, hpm2, hacct,
        hpi2, hpmr2, hpir2, hap2, hx, Call.step, FailStep.specNo, Call.isUndoCall]

/-- The control plane's error for a denied permission grant. -/
def permFailErr : ClientErr := { code := "AccessDenied", msg := "denied" }

/-- A run whose permission grant (spec step 8) fails. -/
def permFailEnv : CreateEnv :=
  { demoEnv with addPermissionResp := .error permFailErr }

/-- Witness for C4: the permission grant fails at step 8 of the worked
example. -/
theorem create_api_abort_no_rollback_witness :
    (create_api permFailEnv "demo-api" "demo-fn" "desc").2 =
      .error (.clientError permFailErr) ∧
    (∀ c ∈ (create_api permFailEnv "demo-api" "demo-fn" "desc").1,
      c.step ≤ FailStep.addPermission.specNo) ∧
    (∀ c ∈ (create_api permFailEnv "demo-api" "demo-fn" "desc").1,
      c.isUndoCall = false) :=
  create_api_abort_no_rollback permFailEnv "demo-api" "demo-fn" "desc"
    { configuration :=
      { functionArn := "arn:aws:lambda:us-east-1:123456789012:function:demo-fn" } }
    .addPermission permFailErr rfl
    ⟨⟨"api123", rfl⟩,
     ⟨[Resource.mk "root123" "/"], "root123", [], rfl, by decide⟩,
     ⟨"node123", rfl⟩, rfl, ⟨"123456789012", by decide⟩, rfl, rfl, rfl⟩ rfl

/-- Every successful run grants exactly one permission, whose statement
id is the wall clock second prefixed with `apigateway-`. -/
theorem permStatementIds_of_ok (env : CreateEnv) (a f d : String) (r : CreateResult)
    (h : (create_api env a f d).2 = .ok r) :
    permStatementIds (create_api env a f d).1 =
      ["apigateway-" ++ decimalRepr env.time] := by
  obtain ⟨fn, api_id, resources, rid, rest, res_id, acct, dep_id,
    hfn, hapi, hres, hroot, hcr, hpm, hacct, hpi, hpmr, hpir, hap, hdep⟩ :=
    create_api_ok_inv env a f d r h
  have heq := create_api_success_eq env a f d fn api_id resources rid rest res_id acct
    dep_id () () () () () hfn hapi hres hroot hcr hpm hacct hpi hpmr hpir hap hdep
  rw [heq]
  rfl

/-- Appending to a fixed prefix is injective. -/
theorem string_append_left_cancel {s x y : String} (h : s ++ x = s ++ y) : x = y := by
  have hd := congrArg String.data h
  simp only [String.data_append] at hd
  exact String.ext (List.append_cancel_left hd)

/-- Claim C9: in every successful run the grant's statement id equals
`apigateway-` followed by the wall clock second at the grant; runs in
the same clock second carry identical statement ids regardless of their
arguments, runs in distinct clock seconds carry distinct statement ids,
and `create_api` is not a function of its arguments alone. -/
theorem create_api_statement_id_wall_clock (env1 env2 : CreateEnv)
    (a1 f1 d1 a2 f2 d2 : String) (r1 r2 : CreateResult)
    (h1 : (create_api env1 a1 f1 d1).2 = .ok r1)
    (h2 : (create_api env2 a2 f2 d2).2 = .ok r2) :
    permStatementIds (create_api env1 a1 f1 d1).1 =
      ["apigateway-" ++ decimalRepr env1.time] ∧
    (env1.time = env2.time →
      permStatementIds (create_api env1 a1 f1 d1).1 =
        permStatementIds (create_api env2 a2 f2 d2).1) ∧
    (env1.time ≠ env2.time →
      permStatementIds (create_api env1 a1 f1 d1).1 ≠
        permStatementIds (create_api env2 a2 f2 d2).1) ∧
    (∃ (e : CreateEnv) (t : Nat) (a f d : String),
      t ≠ e.time ∧ create_api e a f d ≠ create_api { e with time := t } a f d) := by
  have hp1 := permStatementIds_of_ok env1 a1 f1 d1 r1 h1
  have hp2 := permStatementIds_of_ok env2 a2 f2 d2 r2 h2
  refine ⟨hp1, ?_, ?_, ?_⟩
  · intro htime
    rw [hp1, hp2, htime]
  · intro hne hcontr
    rw [hp1, hp2] at hcontr
    injection hcontr with hhead _
    exact hne (decimalRepr_inj _ _ (string_append_left_cancel hhead))
  · refine ⟨demoEnv, 1, "demo-api", "demo-fn", "desc", by decide, ?_⟩
    intro hcontr
    have hperm := congrArg (fun p => permStatementIds p.1) hcontr
    have hq1 := permStatementIds_of_ok demoEnv "demo-api" "demo-fn" "desc"
      demoResult demoEnv_ok
    have hq2 := permStatementIds_of_ok { demoEnv with time := 1 } "demo-api" "demo-fn"
      "desc" demoResult (demoEnv_time_ok 1)
    simp only [] at hperm
    rw [hq1, hq2] at hperm
    injection hperm with hhead _
    have := decimalRepr_inj _ _ (string_append_left_cancel hhead)
    exact absurd this (by decide)

/-- Witness for C9: two successful worked-example runs at clock seconds
0 and 1. -/
theorem create_api_statement_id_wall_clock_witness :
    permStatementIds (create_api demoEnv "demo-api" "demo-fn" "desc").1 =
      ["apigateway-" ++ decimalRepr demoEnv.time] ∧
    (demoEnv.time = ({ demoEnv with time := 1 } : CreateEnv).time →
      permStatementIds (create_api demoEnv "demo-api" "demo-fn" "desc").1 =
        permStatementIds
          (create_api { demoEnv with time := 1 } "demo-api" "demo-fn" "desc").1) ∧
    (demoEnv.time ≠ ({ demoEnv with time := 1 } : CreateEnv).time →
      permStatementIds (create_api demoEnv "demo-api" "demo-fn" "desc").1 ≠
        permStatementIds
          (create_api { demoEnv with time := 1 } "demo-api" "demo-fn" "desc").1) ∧
    (∃ (e : CreateEnv) (t : Nat) (a f d : String),
      t ≠ e.time ∧ create_api e a f d ≠ create_api { e with time := t } a f d) :=
  create_api_statement_id_wall_clock demoEnv { demoEnv with time := 1 }
    "demo-api" "demo-fn" "desc" "demo-api" "demo-fn" "desc" demoResult demoResult
    demoEnv_ok (demoEnv_time_ok 1)
